import Mathlib

/-!
# Verification of the qhub stage pipeline (`qhub/base.py`)

This file shallowly embeds the stage-pipeline core of the repository:
the `Stages` driver (`render`/`deploy`/`destroy` loops over an
`ExitStack`), the `Stage` lifecycle contract (`render`, `deploy`,
`destroy`, `check`), the shared output bus (`Stages.data`), and the
credential-scope `__enter__` hooks of `KubernetesInitialize` and
`KubernetesKeyCloackConfiguration`.

External collaborators that the repository imports but whose modules are
not part of the sources (`qhub.provider.terraform`, `qhub.stages.*`,
`qhub.utils` provider contexts) are modelled as an opaque environment of
pure functions, following the spec's external-interface section.

Python dictionaries are modelled as association lists with
overwrite-on-put; Python exceptions are modelled as an error inductive
threaded through `Except`; the `contextlib.ExitStack` is modelled by a
LIFO list of scope tokens whose enter/exit happenings are recorded in an
event trace.
-/

namespace Qhub

/-- A structured value on the shared output bus (a Python object:
either an opaque leaf or a dict keyed by strings). -/
inductive Value where
  | atom : Nat → Value
  | vdict : List (String × Value) → Value
deriving Repr

mutual

/-- Decidable equality on bus values (hand-rolled: automatic deriving
does not handle the nesting through `List`). -/
def Value.deq : (a b : Value) → Decidable (a = b)
  | Value.atom m, Value.atom n =>
    match Nat.decEq m n with
    | isTrue h => isTrue (by rw [h])
    | isFalse h => isFalse (fun hh => by cases hh; exact h rfl)
  | Value.atom _, Value.vdict _ => isFalse (fun h => by cases h)
  | Value.vdict _, Value.atom _ => isFalse (fun h => by cases h)
  | Value.vdict l, Value.vdict l' =>
    match Value.deqEntries l l' with
    | isTrue h => isTrue (by rw [h])
    | isFalse h => isFalse (fun hh => by cases hh; exact h rfl)

/-- Decidable equality on dict entry lists. -/
def Value.deqEntries : (l l' : List (String × Value)) → Decidable (l = l')
  | [], [] => isTrue rfl
  | [], _ :: _ => isFalse (fun h => by cases h)
  | _ :: _, [] => isFalse (fun h => by cases h)
  | (k, v) :: t, (k', v') :: t' =>
    match String.decEq k k', Value.deq v v', Value.deqEntries t t' with
    | isTrue h1, isTrue h2, isTrue h3 => isTrue (by rw [h1, h2, h3])
    | isFalse h1, _, _ => isFalse (fun hh => by cases hh; exact h1 rfl)
    | _, isFalse h2, _ => isFalse (fun hh => by cases hh; exact h2 rfl)
    | _, _, isFalse h3 => isFalse (fun hh => by cases hh; exact h3 rfl)

end

instance : DecidableEq Value := Value.deq

/-- Python exception kinds raised by the code in `qhub/base.py`.
`keyError` carries the missing key (Python `KeyError`); in the spec's
error taxonomy a `KeyError` on an output-bus read is the
`MissingDependencyError`, and `terraformException` is the
`BackendInvocationError`. `checkError` stands for whatever a stage
`check` collaborator raises. `attributeError` models calling a method
the class does not define. -/
inductive Err where
  | keyError : String → Err
  | typeError : Err
  | terraformException : Err
  | checkError : Err
  | attributeError : Err
deriving DecidableEq, Repr

/-- The shared output bus `Stages.data`: a Python dict from key to
value. Path-valued keys are rendered as their path text. -/
abbrev Bus := List (String × Value)

/-- First-match association lookup (Python dict lookup; puts keep keys
unique so first match is the only match). -/
def lookupKey : List (String × Value) → String → Option Value
  | [], _ => none
  | (k', v) :: t, k => if k' = k then some v else lookupKey t k

/-- `d[k]` on the bus: `KeyError` when absent. -/
def busGet (d : Bus) (k : String) : Except Err Value :=
  match lookupKey d k with
  | some v => Except.ok v
  | none => Except.error (Err.keyError k)

/-- `d[k] = v` on a Python dict: overwrite the existing entry or append. -/
def busPut : Bus → String → Value → Bus
  | [], k, v => [(k, v)]
  | (k', v') :: t, k, v =>
    if k' = k then (k, v) :: t else (k', v') :: busPut t k v

/-- `d.setdefault(k, v)`: insert `v` only when `k` is absent
(only its effect on the dict is modelled). -/
def busSetdefault (d : Bus) (k : String) (v : Value) : Bus :=
  match lookupKey d k with
  | some _ => d
  | none => busPut d k v

/-- Subscripting a value, `v[k]`: field of a dict, `KeyError` when the
key is missing, `TypeError` when the value is not a dict. -/
def getItem : Value → String → Except Err Value
  | Value.vdict l, k =>
    match lookupKey l k with
    | some v => Except.ok v
    | none => Except.error (Err.keyError k)
  | Value.atom _, _ => Except.error Err.typeError

/-- The provider marker classes of `qhub/base.py` (`Local`,
`GoogleCloud`, `DigitalOcean`, `AmazonWebServices`, `Azure`). -/
inductive ProviderTag where
  | localProv | googleCloud | digitalOcean | amazonWebServices | azure
deriving DecidableEq, Repr

/-- The `alias` class attribute of each provider marker (`Local`
declares none). -/
def providerAlias : ProviderTag → Option String
  | ProviderTag.localProv => none
  | ProviderTag.googleCloud => some "gcp"
  | ProviderTag.digitalOcean => some "do"
  | ProviderTag.amazonWebServices => some "aws"
  | ProviderTag.azure => some "azure"

/-- The concrete stage classes of `qhub/base.py`. `TerraformStateLocal`
inherits its `deploy` from `TerraformStateBase`; the abstract bases
(`Task`, `Stage`, `TerraformStateBase`) are not instantiated by the
pipeline and are folded into the per-class behaviour below. -/
inductive StageClass where
  | terraformStateCloud
  | terraformStateLocal
  | infrastructure
  | kubernetesInitialize
  | kubernetesIngress
  | kubernetesKeyCloak
  | kubernetesKeyCloackConfiguration
  | kubernetesServices
  | qhubTfExtensions
deriving DecidableEq, Repr

/-- The Python class name, used as the trace token of the stage's scope. -/
def className : StageClass → String
  | StageClass.terraformStateCloud => "TerraformStateCloud"
  | StageClass.terraformStateLocal => "TerraformStateLocal"
  | StageClass.infrastructure => "Infrastructure"
  | StageClass.kubernetesInitialize => "KubernetesInitialize"
  | StageClass.kubernetesIngress => "KubernetesIngress"
  | StageClass.kubernetesKeyCloak => "KubernetesKeyCloak"
  | StageClass.kubernetesKeyCloackConfiguration => "KubernetesKeyCloackConfiguration"
  | StageClass.kubernetesServices => "KubernetesServices"
  | StageClass.qhubTfExtensions => "QhubTfExtensions"

/-- A numbering of the stage classes (used only to let concrete
environments discriminate between stages in witnesses). -/
def clsIdx : StageClass → Nat
  | StageClass.terraformStateCloud => 0
  | StageClass.terraformStateLocal => 1
  | StageClass.infrastructure => 2
  | StageClass.kubernetesInitialize => 3
  | StageClass.kubernetesIngress => 4
  | StageClass.kubernetesKeyCloak => 5
  | StageClass.kubernetesKeyCloackConfiguration => 6
  | StageClass.kubernetesServices => 7
  | StageClass.qhubTfExtensions => 8

/-- The provider marker classes each stage class inherits from:
`TerraformStateCloud(…, DigitalOcean, AmazonWebServices, Azure)`,
`TerraformStateLocal(…, Local)`, and every other stage `(Stage, All)`
with `All(Local, GoogleCloud, AmazonWebServices, Azure)` — note `All`
does not include `DigitalOcean`. -/
def capabilitySet : StageClass → List ProviderTag
  | StageClass.terraformStateCloud =>
    [ProviderTag.digitalOcean, ProviderTag.amazonWebServices, ProviderTag.azure]
  | StageClass.terraformStateLocal => [ProviderTag.localProv]
  | _ =>
    [ProviderTag.localProv, ProviderTag.googleCloud,
     ProviderTag.amazonWebServices, ProviderTag.azure]

/-- Whether a configured provider string matches one of the stage's
provider markers (by its declared alias). -/
def supportsProvider (cls : StageClass) (p : String) : Bool :=
  (capabilitySet cls).any fun t => providerAlias t = some p

/-- The default directory (`Path`) field of each stage class; `none`
for classes that leave `Task.directory` without a default (the pipeline
always passes `directory=self.directory` explicitly, overriding these). -/
def defaultDirectory : StageClass → Option String
  | StageClass.terraformStateCloud => some "01-terraform-state"
  | StageClass.terraformStateLocal => some "01-terraform-state"
  | StageClass.infrastructure => some "02-infrastructure"
  | _ => none

/-- Which classes define a `tf` method (`TerraformStateLocal` and its
base do not; `Stage.render` therefore has no `tf` to call on it). -/
def hasTf : StageClass → Bool
  | StageClass.terraformStateLocal => false
  | _ => true

/-- `Stages.Config`: the deployment configuration (`provider` string,
default `"aws"`). -/
structure Config where
  provider : String := "aws"
deriving DecidableEq, Repr

/-- The deployment configuration passed to per-stage collaborators. -/
def Config.default : Config := {}

/-- `Stage.target`: `self.parent.directory / self.directory /
self.parent.config.provider`. -/
def tfTarget (parentDir instDir provider : String) : String :=
  parentDir ++ "/" ++ instDir ++ "/" ++ provider

/-- Trace events recorded while a pipeline operation runs: visiting a
stage iteration, a scope entering or exiting the `ExitStack`, and a
backend-engine invocation. -/
inductive Event where
  | visit : String → Event
  | enter : String → Event
  | exitSc : String → Event
  | backend : String → Event
deriving DecidableEq, Repr

/-- Modelled from the spec: the external collaborators the pipeline
calls but whose modules are not part of the sources —
`qhub.provider.terraform.deploy` (backend-engine invocation, may fail
with `TerraformException`), `qhub.stages.tf_objects.*` (pure template
collaborator), `qhub.stages.input_vars.*` and
`qhub.stages.state_imports.*` (pure functions of the bus and the
configuration), and `qhub.stages.checks.*` (post-deploy validation that
may raise). -/
structure Env where
  terraformDeploy :
    String → Bool → Bool → Bool → Bool → Value → Value → Except Unit Value
  tfObjects : StageClass → Config → Value
  inputVars : StageClass → Bus → Config → Value
  stateImports : StageClass → Bus → Config → Value
  check : StageClass → Bus → Config → Except Err Unit

/-- `input_vars` as seen from a stage: classes without an override use
`Stage.input_vars`, which returns `{}`. -/
def inputVarsOf (env : Env) (cls : StageClass) (d : Bus) (cfg : Config) : Value :=
  match cls with
  | StageClass.terraformStateLocal => Value.vdict []
  | StageClass.qhubTfExtensions => Value.vdict []
  | _ => env.inputVars cls d cfg

/-- `state_imports` as seen from a stage: only `TerraformStateCloud`
overrides `Stage.state_imports` (which returns `{}`). -/
def stateImportsOf (env : Env) (cls : StageClass) (d : Bus) (cfg : Config) : Value :=
  match cls with
  | StageClass.terraformStateCloud => env.stateImports cls d cfg
  | _ => Value.vdict []

/-- `check` as seen from a stage: classes without an override use
`Stage.check`, a no-op. -/
def checkOf (env : Env) (cls : StageClass) (d : Bus) (cfg : Config) : Except Err Unit :=
  match cls with
  | StageClass.terraformStateCloud => Except.ok ()
  | StageClass.terraformStateLocal => Except.ok ()
  | StageClass.qhubTfExtensions => Except.ok ()
  | _ => env.check cls d cfg

/-- The parameter names of the `deploy` method that `self.deploy`
resolves to on an instance of each class: `Stage.deploy(self, init,
imports, apply, destroy)` for the generic stages, and the zero-parameter
overrides `TerraformStateBase.deploy(self)` (inherited by
`TerraformStateLocal`) and `TerraformStateCloud.deploy(self)`. -/
def deployParams : StageClass → List String
  | StageClass.terraformStateCloud => []
  | StageClass.terraformStateLocal => []
  | _ => ["init", "imports", "apply", "destroy"]

/-- The keyword arguments `TerraformStateCloud.deploy` passes to
`self.deploy`. -/
def tscKwargs : List String :=
  ["terraform_import", "directory", "input_vars", "state_imports"]

/-- Python call binding for keyword arguments: every keyword must name a
parameter of the called method, otherwise the call raises `TypeError`
before the body runs. -/
def bindKwargs (params kwargs : List String) : Except Err Unit :=
  if kwargs.all (fun k => params.contains k) then Except.ok ()
  else Except.error Err.typeError

/-- Python call binding for positional arguments: passing more
positional arguments than the method has parameters raises `TypeError`
before the body runs. -/
def bindPositional (params : List String) (argc : Nat) : Except Err Unit :=
  if argc ≤ params.length then Except.ok ()
  else Except.error Err.typeError

/-- One step of the `TerraformStateCloud.deploy` body: it calls
`self.deploy(terraform_import=…, directory=…, input_vars=…,
state_imports=…)`, and `self.deploy` resolves to this very
zero-parameter method, so the call raises `TypeError` at binding time;
the recursive branch can therefore never be taken (it is fuelled only to
satisfy the termination checker). -/
def tscDeployFuel : Nat → Except Err Value
  | 0 => Except.error Err.typeError
  | Nat.succ n =>
    match bindKwargs (deployParams StageClass.terraformStateCloud) tscKwargs with
    | Except.error e => Except.error e
    | Except.ok _ => tscDeployFuel n

/-- One invocation of the backend engine (`terraform.deploy`): record
the invocation event and translate a backend failure into
`TerraformException`. -/
def backendInvoke (env : Env) (t : String)
    (init imports apply destroy : Bool) (iv si : Value) :
    Except Err Value × List Event :=
  match env.terraformDeploy t init imports apply destroy iv si with
  | Except.ok v => (Except.ok v, [Event.backend t])
  | Except.error _ => (Except.error Err.terraformException, [Event.backend t])

/-- `stage.deploy()` as called (with no arguments) by `Stages.deploy`:
the generic `Stage.deploy` invokes the backend engine on
`self.target` with `init=True, imports=False, apply=True,
destroy=False` and the stage's input variables and state imports;
`TerraformStateBase.deploy` (inherited by `TerraformStateLocal`)
returns `{}` without touching the backend; `TerraformStateCloud.deploy`
raises `TypeError` (see `tscDeployFuel`). Returns the result together
with the backend-invocation events it performed. -/
def deployNoArgs (env : Env) (cfg : Config) (cls : StageClass)
    (parentDir instDir : String) (d : Bus) : Except Err Value × List Event :=
  match cls with
  | StageClass.terraformStateLocal => (Except.ok (Value.vdict []), [])
  | StageClass.terraformStateCloud => (tscDeployFuel 1, [])
  | _ =>
    backendInvoke env (tfTarget parentDir instDir cfg.provider) true false true false
      (inputVarsOf env cls d cfg) (stateImportsOf env cls d cfg)

/-- `self.deploy(init, imports, apply, destroy)` as called (with four
positional arguments) by `Stage.destroy`: for the terraform-state
classes the zero-parameter override rejects the positional arguments
with `TypeError`; the generic `Stage.deploy` invokes the backend with
the given flags. -/
def deployWithArgs (env : Env) (cfg : Config) (cls : StageClass)
    (parentDir instDir : String) (d : Bus)
    (init imports apply destroy : Bool) : Except Err Value × List Event :=
  match bindPositional (deployParams cls) 4 with
  | Except.error e => (Except.error e, [])
  | Except.ok _ =>
    backendInvoke env (tfTarget parentDir instDir cfg.provider) init imports apply destroy
      (inputVarsOf env cls d cfg) (stateImportsOf env cls d cfg)

/-- `Stage.destroy(ignore_errors=…, imports=True, init=True,
destroy=True, apply=False)`: runs `self.deploy(init, imports, apply,
destroy)` inside `try`; on `TerraformException` it raises the exception
when `ignore_errors` is true and returns `False` otherwise; any other
exception propagates; on success it returns `True`. -/
def stageDestroy (ignoreErrors : Bool) (env : Env) (cfg : Config)
    (cls : StageClass) (parentDir instDir : String) (d : Bus) :
    Except Err Bool × List Event :=
  match deployWithArgs env cfg cls parentDir instDir d true true false true with
  | (Except.ok _, evs) => (Except.ok true, evs)
  | (Except.error Err.terraformException, evs) =>
    if ignoreErrors then (Except.error Err.terraformException, evs)
    else (Except.ok false, evs)
  | (Except.error e, evs) => (Except.error e, evs)

/-- `Stage.render`: `self.parent.data.setdefault(self.directory, {})`
followed by `self.parent.data[self.directory] = self.tf()`; on a class
with no `tf` method the second statement raises `AttributeError`,
leaving the `setdefault` entry behind. Returns the result and the
updated bus. -/
def renderStage (env : Env) (cfg : Config) (cls : StageClass)
    (instDir : String) (d : Bus) : Except Err Unit × Bus :=
  let d1 := busSetdefault d instDir (Value.vdict [])
  if hasTf cls then
    (Except.ok (), busPut d1 instDir (env.tfObjects cls cfg))
  else
    (Except.error Err.attributeError, d1)

/-- The body of each stage class's `__enter__`: the credential scopes
(`KubernetesInitialize`, `KubernetesKeyCloackConfiguration`) read their
source stage's output and path off the bus — raising `KeyError` when
absent — and then push the provider context (`qhub.utils`
`kubernetes_provider_context` / `keycloak_provider_context`, modelled
from the spec as an always-available activation) onto the parent's
`ExitStack`; every other class inherits the no-op `Task.__enter__`.
Returns the context tokens the body pushed onto the parent stack. -/
def enterBody : StageClass → Bus → Except Err (List String)
  | StageClass.kubernetesInitialize, d =>
    (busGet d "stage/02-infrastructure").bind fun v =>
      (getItem v "kubernetes_credentials").bind fun v' =>
        (getItem v' "value").map fun _ => ["kubernetes_provider_context"]
  | StageClass.kubernetesKeyCloackConfiguration, d =>
    (busGet d "stages/05-kubernetes-keycloak").bind fun v =>
      (getItem v "keycloak_credentials").bind fun v' =>
        (getItem v' "value").map fun _ => ["keycloak_provider_context"]
  | _, _ => Except.ok []

/-- The run state of one pipeline operation: the shared output bus
(`Stages.data`), the LIFO `ExitStack` contents (most recently entered
scope first), and the event trace in chronological order. -/
structure St where
  data : Bus
  stack : List String
  trace : List Event
deriving DecidableEq, Repr

/-- Record an event. -/
def emit (st : St) (e : Event) : St :=
  { st with trace := st.trace ++ [e] }

/-- `stack.enter_context`: the scope's `__enter__` has succeeded, so the
scope is registered on the `ExitStack` and its entry recorded. -/
def pushScope (st : St) (tok : String) : St :=
  { st with stack := tok :: st.stack, trace := st.trace ++ [Event.enter tok] }

/-- The lifecycle operation a pipeline run performs. -/
inductive Op where
  | render | deploy | destroy
deriving DecidableEq, Repr

/-- The requested lifecycle operation of one stage, applied to the
current bus: `stage.render()` rewrites the bus; `stage.deploy()` runs
the backend and then `stage.check()` on success (neither writes the
bus — note that the deploy outputs are discarded); `stage.destroy()`
runs `Stage.destroy` with its default `ignore_errors=False` (as
`Stages.destroy` passes no arguments) and its boolean result is
discarded. Returns the result, the emitted events and the resulting
bus. -/
def opRun (op : Op) (env : Env) (cfg : Config) (pipeDir : String)
    (cls : StageClass) (d : Bus) : Except Err Unit × List Event × Bus :=
  match op with
  | Op.render =>
    let r := renderStage env cfg cls pipeDir d
    (r.1, [], r.2)
  | Op.deploy =>
    let r := deployNoArgs env cfg cls pipeDir pipeDir d
    match r.1 with
    | Except.error e => (Except.error e, r.2, d)
    | Except.ok _ =>
      match checkOf env cls d cfg with
      | Except.error e => (Except.error e, r.2, d)
      | Except.ok _ => (Except.ok (), r.2, d)
  | Op.destroy =>
    let r := stageDestroy false env cfg cls pipeDir pipeDir d
    match r.1 with
    | Except.error e => (Except.error e, r.2, d)
    | Except.ok _ => (Except.ok (), r.2, d)

/-- One iteration of the `Stages.render`/`deploy`/`destroy` loop for a
single stage: construct the stage (`stage(directory=self.directory,
parent=self)` — note the pipeline passes its own directory, overriding
the class defaults), enter it on the `ExitStack` (running its
`__enter__` body, which may push provider contexts first and may fail),
then run the requested operation on the shared state. -/
def stepStage (op : Op) (env : Env) (cfg : Config) (pipeDir : String)
    (cls : StageClass) (st : St) : Except Err Unit × St :=
  let st1 := emit st (Event.visit (className cls))
  match enterBody cls st1.data with
  | Except.error e => (Except.error e, st1)
  | Except.ok ctxs =>
    let st2 := pushScope (ctxs.foldl pushScope st1) (className cls)
    let r := opRun op env cfg pipeDir cls st2.data
    (r.1, { st2 with trace := st2.trace ++ r.2.1, data := r.2.2 })

/-- The per-stage loop inside `with self.stack as stack:`: iterate the
stage list left to right, stopping at the first raised exception. -/
def runLoop (op : Op) (env : Env) (cfg : Config) (pipeDir : String) :
    List StageClass → St → Except Err Unit × St
  | [], st => (Except.ok (), st)
  | c :: cs, st =>
    match stepStage op env cfg pipeDir c st with
    | (Except.ok _, st') => runLoop op env cfg pipeDir cs st'
    | (Except.error e, st') => (Except.error e, st')

/-- Leaving `with self.stack`: `ExitStack.__exit__` pops every
registered scope and calls its `__exit__`, most recently entered first,
on success and failure alike. -/
def unwind (st : St) : St :=
  { st with stack := [], trace := st.trace ++ st.stack.map Event.exitSc }

/-- The run state a pipeline operation starts from: the given bus, an
empty `ExitStack` and an empty trace. -/
def initSt (d0 : Bus) : St :=
  { data := d0, stack := [], trace := [] }

/-- A whole `Stages.render()`, `Stages.deploy()` or `Stages.destroy()`
call: run the loop from the given initial bus and then unwind the
`ExitStack`; an exception raised inside the loop still reaches the
caller, after the unwind. The loop runs with `Stages.directory`, whose
default is `Path("stages")`. -/
def runPipeline (op : Op) (env : Env) (cfg : Config)
    (ss : List StageClass) (d0 : Bus) : Except Err Unit × St :=
  let r := runLoop op env cfg "stages" ss (initSt d0)
  (r.1, unwind r.2)

/-- Whether event `a` occurs strictly before the first occurrence of
event `b` in a trace. -/
def occursBefore (tr : List Event) (a b : Event) : Bool :=
  (tr.takeWhile fun e => decide (e ≠ b)).any fun e => decide (e = a)

/-- The scope-enter tokens of a trace, chronologically. -/
def enters : List Event → List String
  | [] => []
  | Event.enter t :: tr => t :: enters tr
  | _ :: tr => enters tr

/-- The scope-exit tokens of a trace, chronologically. -/
def exits : List Event → List String
  | [] => []
  | Event.exitSc t :: tr => t :: exits tr
  | _ :: tr => exits tr

/-- Modelled from the spec: the full pipeline stage order (state
backend, compute infrastructure, cluster bootstrap, ingress, identity
provider, identity-provider configuration, application services); the
repository sources never materialize the concrete `Stages.stages` list,
so it is taken from the spec's overview, with the local state-backend
variant in first position. -/
def fullStageOrder : List StageClass :=
  [StageClass.terraformStateLocal, StageClass.infrastructure,
   StageClass.kubernetesInitialize, StageClass.kubernetesIngress,
   StageClass.kubernetesKeyCloak, StageClass.kubernetesKeyCloackConfiguration,
   StageClass.kubernetesServices]

/-- A benign concrete environment: the backend always succeeds, every
check passes, and templates/input variables are simple distinguishable
values. -/
def env0 : Env where
  terraformDeploy := fun _ _ _ _ _ _ _ => Except.ok (Value.atom 0)
  tfObjects := fun _ _ => Value.atom 1
  inputVars := fun cls _ _ => Value.atom (clsIdx cls)
  stateImports := fun _ _ _ => Value.vdict []
  check := fun _ _ _ => Except.ok ()

/-- A concrete environment whose backend invocation always fails with
`TerraformException`. -/
def envTfFail : Env :=
  { env0 with terraformDeploy := fun _ _ _ _ _ _ _ => Except.error () }

/-- A concrete environment whose backend fails exactly when invoked with
the input variables of `KubernetesIngress` (so the first two generic
stages of a run deploy fine and the ingress stage raises). -/
def envFailIngress : Env :=
  { env0 with
    terraformDeploy := fun _ _ _ _ _ iv _ =>
      if iv = Value.atom (clsIdx StageClass.kubernetesIngress) then Except.error ()
      else Except.ok (Value.atom 0) }

/-- A bus holding the credentials `KubernetesInitialize.__enter__`
looks up, letting its scope activate. -/
def busWithKubeCreds : Bus :=
  [("stage/02-infrastructure",
    Value.vdict [("kubernetes_credentials",
      Value.vdict [("value", Value.atom 0)])])]

/-! ## Basic lemmas about the bus and the trace -/

theorem lookupKey_busPut_self (d : Bus) (k : String) (v : Value) :
    lookupKey (busPut d k v) k = some v := by
  induction d with
  | nil => simp [busPut, lookupKey]
  | cons h t ih =>
    obtain ⟨k', v'⟩ := h
    by_cases hk : k' = k
    · simp [busPut, hk, lookupKey]
    · simp [busPut, hk, lookupKey, ih]

theorem busPut_busPut_self (d : Bus) (k : String) (v w : Value) :
    busPut (busPut d k v) k w = busPut d k w := by
  induction d with
  | nil => simp [busPut]
  | cons h t ih =>
    obtain ⟨k', v'⟩ := h
    by_cases hk : k' = k
    · simp [busPut, hk]
    · simp [busPut, hk, ih]

theorem busSetdefault_of_found (d : Bus) (k : String) (v w : Value)
    (h : lookupKey d k = some v) : busSetdefault d k w = d := by
  simp [busSetdefault, h]

theorem busSetdefault_busPut (d : Bus) (k : String) (v w : Value) :
    busSetdefault (busPut d k v) k w = busPut d k v :=
  busSetdefault_of_found _ _ v _ (lookupKey_busPut_self d k v)

theorem enters_append (a b : List Event) : enters (a ++ b) = enters a ++ enters b := by
  induction a with
  | nil => rfl
  | cons e tr ih => cases e <;> simp [enters, ih]

theorem exits_append (a b : List Event) : exits (a ++ b) = exits a ++ exits b := by
  induction a with
  | nil => rfl
  | cons e tr ih => cases e <;> simp [exits, ih]

theorem enters_map_exitSc (l : List String) : enters (l.map Event.exitSc) = [] := by
  induction l with
  | nil => rfl
  | cons h t ih => simp [enters, ih]

theorem enters_map_enter (l : List String) : enters (l.map Event.enter) = l := by
  induction l with
  | nil => rfl
  | cons h t ih => simp [enters, ih]

theorem exits_map_enter (l : List String) : exits (l.map Event.enter) = [] := by
  induction l with
  | nil => rfl
  | cons h t ih => simp [exits, ih]

theorem exits_map_exitSc (l : List String) : exits (l.map Event.exitSc) = l := by
  induction l with
  | nil => rfl
  | cons h t ih => simp [exits, ih]

/-! ## Structure of a single step and of the loop -/

theorem pushScope_data (st : St) (t : String) : (pushScope st t).data = st.data := rfl

theorem foldl_pushScope (ctxs : List String) (st : St) :
    (ctxs.foldl pushScope st).data = st.data ∧
    (ctxs.foldl pushScope st).stack = ctxs.reverse ++ st.stack ∧
    (ctxs.foldl pushScope st).trace = st.trace ++ ctxs.map Event.enter := by
  induction ctxs generalizing st with
  | nil => simp
  | cons c cs ih =>
    obtain ⟨h1, h2, h3⟩ := ih (pushScope st c)
    simp only [List.foldl_cons]
    refine ⟨?_, ?_, ?_⟩
    · rw [h1]; rfl
    · rw [h2]; simp [pushScope]
    · rw [h3]; simp [pushScope]

/-- A backend invocation produces exactly its invocation event. -/
theorem backendInvoke_snd (env : Env) (t : String)
    (i im a de : Bool) (iv si : Value) :
    (backendInvoke env t i im a de iv si).2 = [Event.backend t] := by
  unfold backendInvoke
  cases env.terraformDeploy t i im a de iv si <;> rfl

/-- The events appended by a `stage.deploy()` call are backend
invocations only — never scope enters or exits. -/
theorem deployNoArgs_events (env : Env) (cfg : Config) (cls : StageClass)
    (pd idir : String) (d : Bus) :
    enters (deployNoArgs env cfg cls pd idir d).2 = [] ∧
    exits (deployNoArgs env cfg cls pd idir d).2 = [] := by
  cases cls <;> simp [deployNoArgs, backendInvoke_snd, enters, exits]

/-- The events appended by a `stage.destroy()` call are backend
invocations only. -/
theorem stageDestroy_events (ig : Bool) (env : Env) (cfg : Config) (cls : StageClass)
    (pd idir : String) (d : Bus) :
    enters (stageDestroy ig env cfg cls pd idir d).2 = [] ∧
    exits (stageDestroy ig env cfg cls pd idir d).2 = [] := by
  have hbase : ∀ r evs, deployWithArgs env cfg cls pd idir d true true false true = (r, evs) →
      enters evs = [] ∧ exits evs = [] := by
    intro r evs h
    have : enters (deployWithArgs env cfg cls pd idir d true true false true).2 = [] ∧
        exits (deployWithArgs env cfg cls pd idir d true true false true).2 = [] := by
      cases cls <;>
        simp [deployWithArgs, bindPositional, deployParams, backendInvoke_snd, enters, exits]
    rw [h] at this
    exact this
  rcases hD : deployWithArgs env cfg cls pd idir d true true false true with ⟨r, evs⟩
  have hev := hbase r evs hD
  rcases r with e | v
  · cases e <;> simp [stageDestroy, hD] <;>
      first
        | exact hev
        | (cases ig <;> simp [stageDestroy, hD] <;> exact hev)
  · simp [stageDestroy, hD]; exact hev

/-- A stage operation emits only backend events, and only `render`
touches the bus. -/
theorem opRun_events (op : Op) (env : Env) (cfg : Config) (pd : String)
    (cls : StageClass) (d : Bus) :
    enters (opRun op env cfg pd cls d).2.1 = [] ∧
    exits (opRun op env cfg pd cls d).2.1 = [] ∧
    (op ≠ Op.render → (opRun op env cfg pd cls d).2.2 = d) := by
  cases op with
  | render => simp [opRun, enters, exits]
  | deploy =>
    obtain ⟨he, hx⟩ := deployNoArgs_events env cfg cls pd pd d
    simp only [opRun]
    cases (deployNoArgs env cfg cls pd pd d).1 with
    | error e => simp [he, hx]
    | ok v =>
      cases checkOf env cls d cfg with
      | error e => simp [he, hx]
      | ok u => simp [he, hx]
  | destroy =>
    obtain ⟨he, hx⟩ := stageDestroy_events false env cfg cls pd pd d
    simp only [opRun]
    cases (stageDestroy false env cfg cls pd pd d).1 with
    | error e => simp [he, hx]
    | ok v => simp [he, hx]

/-- What one loop iteration does to the run state: it pushes a block of
freshly-entered scopes on top of the stack, records exactly those scope
entries (in entry order) and no scope exits, and — except for render —
leaves the bus alone. -/
theorem stepStage_delta (op : Op) (env : Env) (cfg : Config) (pd : String)
    (cls : StageClass) (st : St) :
    ∃ ts : List String,
      (stepStage op env cfg pd cls st).2.stack = ts ++ st.stack ∧
      enters (stepStage op env cfg pd cls st).2.trace = enters st.trace ++ ts.reverse ∧
      exits (stepStage op env cfg pd cls st).2.trace = exits st.trace ∧
      (op ≠ Op.render → (stepStage op env cfg pd cls st).2.data = st.data) := by
  have hemit : (emit st (Event.visit (className cls))).data = st.data := rfl
  rcases h : enterBody cls st.data with e | ctxs
  · refine ⟨[], ?_, ?_, ?_, ?_⟩ <;>
      simp [stepStage, emit, h, enters_append, exits_append, enters, exits]
  · obtain ⟨hf1, hf2, hf3⟩ := foldl_pushScope ctxs (emit st (Event.visit (className cls)))
    simp only [emit] at hf1 hf2 hf3
    obtain ⟨ho1, ho2, ho3⟩ := opRun_events op env cfg pd cls st.data
    refine ⟨className cls :: ctxs.reverse, ?_, ?_, ?_, ?_⟩
    · simp [stepStage, emit, h, pushScope, hf2]
    · simp [stepStage, emit, h, pushScope, hf1, hf3, ho1, enters_append, enters,
        enters_map_enter]
    · simp [stepStage, emit, h, pushScope, hf1, hf3, ho2, exits_append, exits,
        exits_map_enter]
    · intro hop
      simp [stepStage, emit, h, pushScope, hf1, ho3 hop]

/-- Splitting the loop: running `xs ++ ys` runs `xs` and continues with
`ys` only when no stage of `xs` raised. -/
theorem runLoop_append (op : Op) (env : Env) (cfg : Config) (pd : String)
    (xs ys : List StageClass) (st : St) :
    runLoop op env cfg pd (xs ++ ys) st =
      match runLoop op env cfg pd xs st with
      | (Except.ok _, st') => runLoop op env cfg pd ys st'
      | (Except.error e, st') => (Except.error e, st') := by
  induction xs generalizing st with
  | nil => rfl
  | cons c cs ih =>
    simp only [List.cons_append, runLoop]
    rcases stepStage op env cfg pd c st with ⟨r, st'⟩
    rcases r with e | u
    · rfl
    · exact ih st'

/-- What the whole loop does to the run state: scopes only accumulate
(a block `ts` on top of the stack, entered in `ts.reverse` order), no
scope ever exits inside the loop, and deploy/destroy never touch the
bus. -/
theorem runLoop_delta (op : Op) (env : Env) (cfg : Config) (pd : String)
    (ss : List StageClass) (st : St) :
    ∃ ts : List String,
      (runLoop op env cfg pd ss st).2.stack = ts ++ st.stack ∧
      enters (runLoop op env cfg pd ss st).2.trace = enters st.trace ++ ts.reverse ∧
      exits (runLoop op env cfg pd ss st).2.trace = exits st.trace ∧
      (op ≠ Op.render → (runLoop op env cfg pd ss st).2.data = st.data) := by
  induction ss generalizing st with
  | nil => exact ⟨[], by simp [runLoop], by simp [runLoop], by simp [runLoop],
      fun _ => by simp [runLoop]⟩
  | cons c cs ih =>
    obtain ⟨ts1, h1, h2, h3, h4⟩ := stepStage_delta op env cfg pd c st
    rcases hs : stepStage op env cfg pd c st with ⟨r, st'⟩
    rw [hs] at h1 h2 h3 h4
    rcases r with e | u
    · simp only [runLoop, hs]
      exact ⟨ts1, h1, h2, h3, h4⟩
    · obtain ⟨ts2, g1, g2, g3, g4⟩ := ih st'
      simp only [runLoop, hs]
      refine ⟨ts2 ++ ts1, ?_, ?_, ?_, ?_⟩
      · rw [g1, h1, List.append_assoc]
      · rw [g2, h2]; simp
      · rw [g3, h3]
      · intro hop; rw [g4 hop, h4 hop]

/-- The `Stages.deploy`/`Stages.destroy` operations never write the
shared output bus; only `render` does. -/
theorem runPipeline_data (op : Op) (env : Env) (cfg : Config)
    (ss : List StageClass) (d0 : Bus) (hop : op ≠ Op.render) :
    (runPipeline op env cfg ss d0).2.data = d0 := by
  obtain ⟨ts, _, _, _, h4⟩ := runLoop_delta op env cfg "stages" ss (initSt d0)
  simpa [runPipeline, unwind, initSt] using h4 hop

/-- The structured-teardown guarantee at pipeline level: whatever the
operation, the stage list, the collaborators' behaviour and the initial
bus, the final trace's scope exits are exactly the scope enters in
reverse order and the `ExitStack` ends empty. -/
theorem runPipeline_unwound (op : Op) (env : Env) (cfg : Config)
    (ss : List StageClass) (d0 : Bus) :
    exits (runPipeline op env cfg ss d0).2.trace
        = (enters (runPipeline op env cfg ss d0).2.trace).reverse ∧
    (runPipeline op env cfg ss d0).2.stack = [] := by
  obtain ⟨ts, h1, h2, h3, _⟩ := runLoop_delta op env cfg "stages" ss (initSt d0)
  simp only [initSt] at h1 h2 h3
  have hstack :
      (runLoop op env cfg "stages" ss { data := d0, stack := [], trace := [] }).2.stack = ts := by
    simpa using h1
  have henters : enters (runPipeline op env cfg ss d0).2.trace = ts.reverse := by
    have := h2
    simp only [enters] at this
    simp [runPipeline, unwind, enters_append, enters_map_exitSc, initSt, this]
  have hexits : exits (runPipeline op env cfg ss d0).2.trace = ts := by
    have := h3
    simp only [exits] at this
    simp [runPipeline, unwind, exits_append, exits_map_exitSc, initSt, this, hstack]
  refine ⟨?_, ?_⟩
  · rw [henters, hexits, List.reverse_reverse]
  · simp [runPipeline, unwind]

theorem busSetdefault_idem (d : Bus) (k : String) (v w : Value) :
    busSetdefault (busSetdefault d k v) k w = busSetdefault d k v := by
  unfold busSetdefault
  rcases h : lookupKey d k with _ | u
  · simp [lookupKey_busPut_self]
  · simp [h]

/-! ## The claims -/

/-- C3: for every pipeline operation (render, deploy, or destroy) and
every behaviour of the collaborators — hence every sequence of
per-stage successes and failures — the number of scope exit calls by
run's end equals the number of scope enter calls, and the exits occur
in exactly the reverse order of the corresponding enters, on every exit
path (normal completion or exception). -/
theorem claim3_stack_reverse_unwind (op : Op) (env : Env) (cfg : Config)
    (ss : List StageClass) (d0 : Bus) :
    exits (runPipeline op env cfg ss d0).2.trace
        = (enters (runPipeline op env cfg ss d0).2.trace).reverse ∧
    (exits (runPipeline op env cfg ss d0).2.trace).length
        = (enters (runPipeline op env cfg ss d0).2.trace).length ∧
    (runPipeline op env cfg ss d0).2.stack = [] := by
  obtain ⟨h1, h2⟩ := runPipeline_unwound op env cfg ss d0
  exact ⟨h1, by rw [h1, List.length_reverse], h2⟩

/-- C1 fails on the code: a deploy run in which the stage's deploy
completes without error (the run returns `ok`) that nevertheless leaves
the shared output bus without any entry for the stage —
`Stages.deploy` never writes stage outputs to the bus. -/
theorem claim1_counterexample :
    (runPipeline Op.deploy env0 Config.default [StageClass.infrastructure] []).1
        = Except.ok () ∧
    (runPipeline Op.deploy env0 Config.default [StageClass.infrastructure] []).2.data
        = [] := by
  constructor <;> rfl

/-- C1 amended: only `render()` writes a stage's output to the bus — a
successful render records the stage's `tf()` output under the stage's
directory key — while `deploy()` leaves the bus exactly as it found it,
whatever the stages and collaborator behaviour. -/
theorem claim1_amended (env : Env) (cfg : Config) (ss : List StageClass)
    (d0 : Bus) (cls : StageClass) (dir : String) (d : Bus)
    (h : hasTf cls = true) :
    (runPipeline Op.deploy env cfg ss d0).2.data = d0 ∧
    (renderStage env cfg cls dir d).1 = Except.ok () ∧
    lookupKey (renderStage env cfg cls dir d).2 dir
        = some (env.tfObjects cls cfg) := by
  refine ⟨runPipeline_data Op.deploy env cfg ss d0 (by simp), ?_, ?_⟩
  · simp [renderStage, h]
  · simp [renderStage, h, lookupKey_busPut_self]

/-- Witness for C1 amended at a concrete instance. -/
theorem claim1_amended_witness :
    (runPipeline Op.deploy env0 Config.default [StageClass.kubernetesIngress] []).2.data
        = [] ∧
    (renderStage env0 Config.default StageClass.infrastructure "02-infrastructure" []).1
        = Except.ok () ∧
    lookupKey
        (renderStage env0 Config.default StageClass.infrastructure "02-infrastructure" []).2
        "02-infrastructure"
        = some (env0.tfObjects StageClass.infrastructure Config.default) :=
  claim1_amended env0 Config.default [StageClass.kubernetesIngress] []
    StageClass.infrastructure "02-infrastructure" [] (by rfl)

/-- C2: the claim states the intended semantics (`ignore_errors=True`
suppresses the backend failure and returns `False`; `ignore_errors=False`
surfaces it); the code does the opposite. Evaluating `Stage.destroy` at
the failing input (a backend invocation that raises
`TerraformException`): with `ignore_errors=True` the exception is
re-raised, with `ignore_errors=False` it is swallowed and `False` is
returned. -/
theorem claim2_inverted_ignore_errors :
    (stageDestroy true envTfFail Config.default StageClass.infrastructure
        "stages" "stages" []).1 = Except.error Err.terraformException ∧
    (stageDestroy false envTfFail Config.default StageClass.infrastructure
        "stages" "stages" []).1 = Except.ok false := by
  constructor <;> rfl

/-- C9: `TerraformStateCloud.deploy` always raises `TypeError` — its
body calls `self.deploy` with keyword arguments its own zero-parameter
override does not accept — so a pipeline deploy of the terraform-state
cloud stage fails for every environment and configuration, and the
backend engine is never invoked. -/
theorem claim9_tsc_deploy_typeerror (env : Env) (cfg : Config)
    (pd idir : String) (d d0 : Bus) :
    deployNoArgs env cfg StageClass.terraformStateCloud pd idir d
        = (Except.error Err.typeError, []) ∧
    (runPipeline Op.deploy env cfg [StageClass.terraformStateCloud] d0).1
        = Except.error Err.typeError ∧
    ∀ t, Event.backend t
        ∉ (runPipeline Op.deploy env cfg [StageClass.terraformStateCloud] d0).2.trace := by
  refine ⟨rfl, rfl, ?_⟩
  intro t
  simp [runPipeline, runLoop, stepStage, opRun, deployNoArgs, tscDeployFuel,
    bindKwargs, tscKwargs, deployParams, enterBody, emit, pushScope, unwind, initSt]

/-- C5 fails on the code: it demands the missing-dependency error "(not
some other error kind)" for every way the referenced output or path can
be absent — including an earlier stage that "ran without producing the
expected shape" — but when `KubernetesInitialize`'s referenced output
is present with the wrong shape (not a dict), subscripting it raises
`TypeError`, a different error kind, never the missing-key error. -/
theorem claim5_counterexample :
    enterBody StageClass.kubernetesInitialize
        [("stage/02-infrastructure", Value.atom 0)]
        = Except.error Err.typeError ∧
    ¬ ∃ k, enterBody StageClass.kubernetesInitialize
        [("stage/02-infrastructure", Value.atom 0)]
        = Except.error (Err.keyError k) := by
  refine ⟨rfl, ?_⟩
  rintro ⟨k, h⟩
  simp [enterBody, busGet, getItem, lookupKey, Except.bind] at h

/-- C5 amended: for both scope-declaring stages, entering the scope
fails with the missing-key error (Python `KeyError`, the spec's
`MissingDependencyError`) naming the missing key whenever the
referenced earlier stage's output key is absent from the bus, or a key
of the named path (`kubernetes_credentials`/`keycloak_credentials`, or
`value` below it) is absent from the dict at its level; but when the
referenced output itself has the wrong shape (not a dict), the failure
is a `TypeError` instead — a different error kind. -/
theorem claim5_amended (d : Bus) :
    (lookupKey d "stage/02-infrastructure" = none →
      enterBody StageClass.kubernetesInitialize d
        = Except.error (Err.keyError "stage/02-infrastructure")) ∧
    (∀ creds, lookupKey d "stage/02-infrastructure" = some (Value.vdict creds) →
      lookupKey creds "kubernetes_credentials" = none →
      enterBody StageClass.kubernetesInitialize d
        = Except.error (Err.keyError "kubernetes_credentials")) ∧
    (∀ creds inner,
      lookupKey d "stage/02-infrastructure" = some (Value.vdict creds) →
      lookupKey creds "kubernetes_credentials" = some (Value.vdict inner) →
      lookupKey inner "value" = none →
      enterBody StageClass.kubernetesInitialize d
        = Except.error (Err.keyError "value")) ∧
    (∀ n, lookupKey d "stage/02-infrastructure" = some (Value.atom n) →
      enterBody StageClass.kubernetesInitialize d
        = Except.error Err.typeError) ∧
    (lookupKey d "stages/05-kubernetes-keycloak" = none →
      enterBody StageClass.kubernetesKeyCloackConfiguration d
        = Except.error (Err.keyError "stages/05-kubernetes-keycloak")) ∧
    (∀ creds, lookupKey d "stages/05-kubernetes-keycloak" = some (Value.vdict creds) →
      lookupKey creds "keycloak_credentials" = none →
      enterBody StageClass.kubernetesKeyCloackConfiguration d
        = Except.error (Err.keyError "keycloak_credentials")) ∧
    (∀ creds inner,
      lookupKey d "stages/05-kubernetes-keycloak" = some (Value.vdict creds) →
      lookupKey creds "keycloak_credentials" = some (Value.vdict inner) →
      lookupKey inner "value" = none →
      enterBody StageClass.kubernetesKeyCloackConfiguration d
        = Except.error (Err.keyError "value")) ∧
    (∀ n, lookupKey d "stages/05-kubernetes-keycloak" = some (Value.atom n) →
      enterBody StageClass.kubernetesKeyCloackConfiguration d
        = Except.error Err.typeError) := by
  refine ⟨?_, ?_, ?_, ?_, ?_, ?_, ?_, ?_⟩
  · intro h1
    simp [enterBody, busGet, getItem, h1, Except.bind]
  · intro creds h1 h2
    simp [enterBody, busGet, getItem, h1, h2, Except.bind]
  · intro creds inner h1 h2 h3
    simp [enterBody, busGet, getItem, h1, h2, h3, Except.bind, Except.map]
  · intro n h1
    simp [enterBody, busGet, getItem, h1, Except.bind]
  · intro h1
    simp [enterBody, busGet, getItem, h1, Except.bind]
  · intro creds h1 h2
    simp [enterBody, busGet, getItem, h1, h2, Except.bind]
  · intro creds inner h1 h2 h3
    simp [enterBody, busGet, getItem, h1, h2, h3, Except.bind, Except.map]
  · intro n h1
    simp [enterBody, busGet, getItem, h1, Except.bind]

/-- Witness for C5 amended, exercising every case: the empty bus
(outputs absent), a bus whose outputs are empty dicts (first path key
absent), a bus whose credentials dicts lack `value`, and a bus whose
outputs have the wrong shape. -/
theorem claim5_amended_witness :
    enterBody StageClass.kubernetesInitialize []
        = Except.error (Err.keyError "stage/02-infrastructure") ∧
    enterBody StageClass.kubernetesKeyCloackConfiguration []
        = Except.error (Err.keyError "stages/05-kubernetes-keycloak") ∧
    enterBody StageClass.kubernetesInitialize
        [("stage/02-infrastructure", Value.vdict []),
         ("stages/05-kubernetes-keycloak", Value.vdict [])]
        = Except.error (Err.keyError "kubernetes_credentials") ∧
    enterBody StageClass.kubernetesKeyCloackConfiguration
        [("stage/02-infrastructure", Value.vdict []),
         ("stages/05-kubernetes-keycloak", Value.vdict [])]
        = Except.error (Err.keyError "keycloak_credentials") ∧
    enterBody StageClass.kubernetesInitialize
        [("stage/02-infrastructure",
          Value.vdict [("kubernetes_credentials", Value.vdict [])]),
         ("stages/05-kubernetes-keycloak",
          Value.vdict [("keycloak_credentials", Value.vdict [])])]
        = Except.error (Err.keyError "value") ∧
    enterBody StageClass.kubernetesKeyCloackConfiguration
        [("stage/02-infrastructure",
          Value.vdict [("kubernetes_credentials", Value.vdict [])]),
         ("stages/05-kubernetes-keycloak",
          Value.vdict [("keycloak_credentials", Value.vdict [])])]
        = Except.error (Err.keyError "value") ∧
    enterBody StageClass.kubernetesInitialize
        [("stage/02-infrastructure", Value.atom 0),
         ("stages/05-kubernetes-keycloak", Value.atom 1)]
        = Except.error Err.typeError ∧
    enterBody StageClass.kubernetesKeyCloackConfiguration
        [("stage/02-infrastructure", Value.atom 0),
         ("stages/05-kubernetes-keycloak", Value.atom 1)]
        = Except.error Err.typeError :=
  ⟨(claim5_amended []).1 (by rfl),
   (claim5_amended []).2.2.2.2.1 (by rfl),
   (claim5_amended
      [("stage/02-infrastructure", Value.vdict []),
       ("stages/05-kubernetes-keycloak", Value.vdict [])]).2.1 [] (by rfl) (by rfl),
   (claim5_amended
      [("stage/02-infrastructure", Value.vdict []),
       ("stages/05-kubernetes-keycloak", Value.vdict [])]).2.2.2.2.2.1 [] (by rfl) (by rfl),
   (claim5_amended
      [("stage/02-infrastructure",
        Value.vdict [("kubernetes_credentials", Value.vdict [])]),
       ("stages/05-kubernetes-keycloak",
        Value.vdict [("keycloak_credentials", Value.vdict [])])]).2.2.1
      [("kubernetes_credentials", Value.vdict [])] [] (by rfl) (by rfl) (by rfl),
   (claim5_amended
      [("stage/02-infrastructure",
        Value.vdict [("kubernetes_credentials", Value.vdict [])]),
       ("stages/05-kubernetes-keycloak",
        Value.vdict [("keycloak_credentials", Value.vdict [])])]).2.2.2.2.2.2.1
      [("keycloak_credentials", Value.vdict [])] [] (by rfl) (by rfl) (by rfl),
   (claim5_amended
      [("stage/02-infrastructure", Value.atom 0),
       ("stages/05-kubernetes-keycloak", Value.atom 1)]).2.2.2.1 0 (by rfl),
   (claim5_amended
      [("stage/02-infrastructure", Value.atom 0),
       ("stages/05-kubernetes-keycloak", Value.atom 1)]).2.2.2.2.2.2.2 1 (by rfl)⟩

/-- C8: `Stage.render` is idempotent on the shared bus — rendering a
stage twice with unchanged configuration returns the same result the
second time and leaves the bus exactly as after the first render (the
template collaborator being a pure function of the configuration). -/
theorem claim8_render_idempotent (env : Env) (cfg : Config)
    (cls : StageClass) (dir : String) (d : Bus) :
    (renderStage env cfg cls dir (renderStage env cfg cls dir d).2).1
        = (renderStage env cfg cls dir d).1 ∧
    (renderStage env cfg cls dir (renderStage env cfg cls dir d).2).2
        = (renderStage env cfg cls dir d).2 := by
  rcases h : hasTf cls with _ | _
  · constructor <;> simp [renderStage, h, busSetdefault_idem]
  · constructor <;>
      simp [renderStage, h, busSetdefault_busPut, busPut_busPut_self]

/-- C6 fails on the code: in a concrete two-stage deploy run whose
first stage (`KubernetesInitialize`) activates its provider context,
the next stage is visited, entered, and runs its backend invocation
strictly before the provider context's exit — the activation is pushed
onto the run-level `ExitStack` and so stays active across the stage
boundary instead of being torn down when the stage's own operations
finish. -/
theorem claim6_counterexample :
    Event.enter "kubernetes_provider_context"
      ∈ (runPipeline Op.deploy env0 Config.default
          [StageClass.kubernetesInitialize, StageClass.infrastructure]
          busWithKubeCreds).2.trace ∧
    occursBefore
        (runPipeline Op.deploy env0 Config.default
          [StageClass.kubernetesInitialize, StageClass.infrastructure]
          busWithKubeCreds).2.trace
        (Event.enter "Infrastructure")
        (Event.exitSc "kubernetes_provider_context") = true ∧
    occursBefore
        (runPipeline Op.deploy env0 Config.default
          [StageClass.kubernetesInitialize, StageClass.infrastructure]
          busWithKubeCreds).2.trace
        (Event.backend "stages/stages/aws")
        (Event.exitSc "kubernetes_provider_context") = true := by
  refine ⟨?_, ?_, ?_⟩ <;> decide

/-- C6 amended: a credential scope's activation is torn down only
during the final unwind at the end of the whole pipeline run — no scope
exit ever happens inside the stage loop, so an activation entered for a
stage remains active through all later stages and is released, in
reverse order, when the run's `ExitStack` closes. -/
theorem claim6_amended (op : Op) (env : Env) (cfg : Config)
    (ss : List StageClass) (d0 : Bus) :
    exits (runLoop op env cfg "stages" ss (initSt d0)).2.trace = [] ∧
    (runPipeline op env cfg ss d0).2.trace
        = (runLoop op env cfg "stages" ss (initSt d0)).2.trace
          ++ ((runLoop op env cfg "stages" ss (initSt d0)).2.stack).map Event.exitSc := by
  obtain ⟨ts, _, _, h3, _⟩ := runLoop_delta op env cfg "stages" ss (initSt d0)
  refine ⟨?_, rfl⟩
  simpa [initSt, exits] using h3

/-- C7 fails on the code: `Infrastructure` mixes in `All`, whose
provider markers do not cover the `"do"` (DigitalOcean) provider, yet
constructing and deploying the stage with `provider="do"` raises no
configuration error at all — the run succeeds and the backend engine is
invoked on the DigitalOcean target path. No capability validation
exists anywhere in the pipeline. -/
theorem claim7_counterexample :
    supportsProvider StageClass.infrastructure "do" = false ∧
    (runPipeline Op.deploy env0 { provider := "do" }
        [StageClass.infrastructure] []).1 = Except.ok () ∧
    Event.backend "stages/stages/do"
      ∈ (runPipeline Op.deploy env0 { provider := "do" }
          [StageClass.infrastructure] []).2.trace := by
  refine ⟨by decide, by rfl, by decide⟩

/-- C7 amended: the source performs no capability validation — a stage
constructed for any provider string whatsoever is accepted, the deploy
proceeds to the backend invocation, and the provider only parametrizes
the backend target path. -/
theorem claim7_amended (p : String) :
    (runPipeline Op.deploy env0 { provider := p }
        [StageClass.infrastructure] []).1 = Except.ok () ∧
    Event.backend (tfTarget "stages" "stages" p)
      ∈ (runPipeline Op.deploy env0 { provider := p }
          [StageClass.infrastructure] []).2.trace := by
  constructor <;>
    simp [runPipeline, runLoop, stepStage, opRun, deployNoArgs, backendInvoke,
      env0, enterBody, emit, pushScope, unwind, initSt, checkOf, inputVarsOf,
      stateImportsOf]

/-- C4: in a deploy run whose first `k` stages succeed and whose stage
`k` raises a hard error, the run is identical to the run of only the
first `k + 1` stages (so no later stage is ever executed), the error
reaches the caller, the resource stack is fully unwound (exits reverse
the enters, stack empty), and the bus is exactly the initial one — so
the entries of stages `0..k-1` remain unchanged. -/
theorem claim4_hard_error_aborts (env : Env) (cfg : Config)
    (ss : List StageClass) (k : Nat) (hk : k < ss.length) (e : Err) (d0 : Bus)
    (hpre : (runLoop Op.deploy env cfg "stages" (ss.take k) (initSt d0)).1
        = Except.ok ())
    (hfail : (stepStage Op.deploy env cfg "stages" (ss.get ⟨k, hk⟩)
        (runLoop Op.deploy env cfg "stages" (ss.take k) (initSt d0)).2).1
        = Except.error e) :
    runPipeline Op.deploy env cfg ss d0
        = runPipeline Op.deploy env cfg (ss.take (k + 1)) d0 ∧
    (runPipeline Op.deploy env cfg ss d0).1 = Except.error e ∧
    exits (runPipeline Op.deploy env cfg ss d0).2.trace
        = (enters (runPipeline Op.deploy env cfg ss d0).2.trace).reverse ∧
    (runPipeline Op.deploy env cfg ss d0).2.stack = [] ∧
    (runPipeline Op.deploy env cfg ss d0).2.data = d0 := by
  have htake : ss.take (k + 1) = ss.take k ++ [ss.get ⟨k, hk⟩] := by
    rw [List.take_succ, List.getElem?_eq_getElem hk]
    simp [List.get_eq_getElem]
  rcases hL : runLoop Op.deploy env cfg "stages" (ss.take k) (initSt d0) with ⟨r0, stL⟩
  rw [hL] at hpre hfail
  simp only at hpre hfail
  subst hpre
  rcases hstep : stepStage Op.deploy env cfg "stages" (ss.get ⟨k, hk⟩) stL with ⟨r1, stS⟩
  rw [hstep] at hfail
  simp only at hfail
  subst hfail
  have h1 : runLoop Op.deploy env cfg "stages" (ss.take (k + 1)) (initSt d0)
      = (Except.error e, stS) := by
    rw [htake, runLoop_append, hL]
    show runLoop Op.deploy env cfg "stages" [ss.get ⟨k, hk⟩] stL = (Except.error e, stS)
    simp only [runLoop, hstep]
  have h2 : runLoop Op.deploy env cfg "stages" ss (initSt d0)
      = (Except.error e, stS) := by
    conv_lhs => rw [← List.take_append_drop (k + 1) ss]
    rw [runLoop_append, h1]
  have hpp : runPipeline Op.deploy env cfg ss d0 = (Except.error e, unwind stS) := by
    simp [runPipeline, h2]
  refine ⟨?_, ?_, ?_, ?_, ?_⟩
  · rw [hpp]
    simp [runPipeline, h1]
  · rw [hpp]
  · exact (runPipeline_unwound Op.deploy env cfg ss d0).1
  · exact (runPipeline_unwound Op.deploy env cfg ss d0).2
  · exact runPipeline_data Op.deploy env cfg ss d0 (by simp)

/-- Witness for C4: a four-stage deploy in which the collaborators make
the first two stages succeed and make stage 2 (`KubernetesIngress`)
fail with a backend error. -/
theorem claim4_hard_error_aborts_witness :
    runPipeline Op.deploy envFailIngress Config.default
        [StageClass.terraformStateLocal, StageClass.infrastructure,
         StageClass.kubernetesIngress, StageClass.kubernetesKeyCloak] []
      = runPipeline Op.deploy envFailIngress Config.default
          ([StageClass.terraformStateLocal, StageClass.infrastructure,
            StageClass.kubernetesIngress, StageClass.kubernetesKeyCloak].take 3) [] ∧
    (runPipeline Op.deploy envFailIngress Config.default
        [StageClass.terraformStateLocal, StageClass.infrastructure,
         StageClass.kubernetesIngress, StageClass.kubernetesKeyCloak] []).1
      = Except.error Err.terraformException ∧
    exits (runPipeline Op.deploy envFailIngress Config.default
        [StageClass.terraformStateLocal, StageClass.infrastructure,
         StageClass.kubernetesIngress, StageClass.kubernetesKeyCloak] []).2.trace
      = (enters (runPipeline Op.deploy envFailIngress Config.default
          [StageClass.terraformStateLocal, StageClass.infrastructure,
           StageClass.kubernetesIngress, StageClass.kubernetesKeyCloak] []).2.trace).reverse ∧
    (runPipeline Op.deploy envFailIngress Config.default
        [StageClass.terraformStateLocal, StageClass.infrastructure,
         StageClass.kubernetesIngress, StageClass.kubernetesKeyCloak] []).2.stack = [] ∧
    (runPipeline Op.deploy envFailIngress Config.default
        [StageClass.terraformStateLocal, StageClass.infrastructure,
         StageClass.kubernetesIngress, StageClass.kubernetesKeyCloak] []).2.data = [] :=
  claim4_hard_error_aborts envFailIngress Config.default
    [StageClass.terraformStateLocal, StageClass.infrastructure,
     StageClass.kubernetesIngress, StageClass.kubernetesKeyCloak]
    2 (by decide) Err.terraformException [] (by rfl) (by rfl)

/-- C10: a full-pipeline deploy run, whatever the collaborators do, is
identical to running only its first three stages — nothing past
`KubernetesInitialize` ever executes — and always ends in an error;
the bus stays empty because `deploy()` writes no bus entries, so
entering `KubernetesInitialize` fails looking up the never-written key
`"stage/02-infrastructure"` (and `KubernetesKeyCloackConfiguration`
would fail on `"stages/05-kubernetes-keycloak"`), while a render of
the infrastructure stage records its output under its directory key
`"02-infrastructure"`, not under the key the scope reads. -/
theorem claim10_full_deploy_stuck (env : Env) (cfg : Config) :
    runPipeline Op.deploy env cfg fullStageOrder []
        = runPipeline Op.deploy env cfg (fullStageOrder.take 3) [] ∧
    (∃ e, (runPipeline Op.deploy env cfg fullStageOrder []).1 = Except.error e) ∧
    (runPipeline Op.deploy env cfg fullStageOrder []).2.data = [] ∧
    enterBody StageClass.kubernetesInitialize []
        = Except.error (Err.keyError "stage/02-infrastructure") ∧
    enterBody StageClass.kubernetesKeyCloackConfiguration []
        = Except.error (Err.keyError "stages/05-kubernetes-keycloak") ∧
    lookupKey (renderStage env cfg StageClass.infrastructure "02-infrastructure" []).2
        "02-infrastructure" = some (env.tfObjects StageClass.infrastructure cfg) ∧
    lookupKey (renderStage env cfg StageClass.infrastructure "02-infrastructure" []).2
        "stage/02-infrastructure" = none := by
  refine ⟨?_, ?_, runPipeline_data Op.deploy env cfg fullStageOrder [] (by simp),
    rfl, rfl, rfl, rfl⟩
  all_goals
    rcases hTf : env.terraformDeploy (tfTarget "stages" "stages" cfg.provider)
        true false true false (env.inputVars StageClass.infrastructure [] cfg)
        (Value.vdict []) with u | v
  · simp [runPipeline, runLoop, stepStage, opRun, deployNoArgs, backendInvoke,
      enterBody, Except.bind, Except.map, getItem, busGet, lookupKey,
        emit, pushScope, initSt, checkOf, inputVarsOf, stateImportsOf,
      fullStageOrder, unwind, hTf]
  · rcases hCk : env.check StageClass.infrastructure [] cfg with ce | cu
    all_goals
      simp [runPipeline, runLoop, stepStage, opRun, deployNoArgs, backendInvoke,
        enterBody, Except.bind, Except.map, getItem, busGet, lookupKey,
        emit, pushScope, initSt, checkOf, inputVarsOf, stateImportsOf,
        fullStageOrder, unwind, hTf, hCk, busGet, lookupKey]
  · refine ⟨Err.terraformException, ?_⟩
    simp [runPipeline, runLoop, stepStage, opRun, deployNoArgs, backendInvoke,
      enterBody, Except.bind, Except.map, getItem, busGet, lookupKey,
        emit, pushScope, initSt, checkOf, inputVarsOf, stateImportsOf,
      fullStageOrder, unwind, hTf]
  · rcases hCk : env.check StageClass.infrastructure [] cfg with ce | cu
    · refine ⟨ce, ?_⟩
      simp [runPipeline, runLoop, stepStage, opRun, deployNoArgs, backendInvoke,
        enterBody, Except.bind, Except.map, getItem, busGet, lookupKey,
        emit, pushScope, initSt, checkOf, inputVarsOf, stateImportsOf,
        fullStageOrder, unwind, hTf, hCk]
    · refine ⟨Err.keyError "stage/02-infrastructure", ?_⟩
      simp [runPipeline, runLoop, stepStage, opRun, deployNoArgs, backendInvoke,
        enterBody, Except.bind, Except.map, getItem, busGet, lookupKey,
        emit, pushScope, initSt, checkOf, inputVarsOf, stateImportsOf,
        fullStageOrder, unwind, hTf, hCk, busGet, lookupKey]

end Qhub
